import Mathlib

/-!
Verification of `python/chigger/exodus/LabelExodusSource.py` (MOOSE chigger).

The module is a small adapter (`LabelExodusSource`) that attaches labels to
an `ExodusSource` visualization object.  Its `update` method rebuilds a
filter chain from a `label_type` option and the mesh source's variable
metadata, configures the label mapper, and injects the renderer into the
final `SelectVisiblePoints` stage.

The embedding below translates the adapter faithfully.  Collaborators that
live outside the provided source tree (the `ExodusSource` mesh object, the
filter classes, the option registry and the base `ChiggerSource2D` class)
are modelled from the specification; each such definition carries a doc
comment saying so.  Side-effecting calls that matter to ordering claims are
recorded in an explicit effect trace returned by `update`.
-/

/-- The three filter stage types named in `LabelExodusSource.FILTER_TYPES`:
`filters.IdFilter`, `filters.CellCenters`, `filters.SelectVisiblePoints`. -/
inductive FilterType where
  | IdFilter
  | CellCenters
  | SelectVisiblePoints
deriving DecidableEq, Repr

/-- Modelled from the spec: a filter-chain stage instance.  Each Python
`filters.X()` call creates a fresh object; instance identity is modelled by
the `iid` field, allocated from a monotone counter.  `SelectVisiblePoints`
carries a renderer handle set via `getVTKFilter().SetRenderer(...)`. -/
structure FilterInstance where
  ftype : FilterType
  iid : Nat
  renderer : Option Nat
deriving DecidableEq, Repr

/-- Variable object-type tag: `ExodusReader.ELEMENTAL` versus the nodal
alternative, as compared in `update`. -/
inductive ObjectType where
  | ELEMENTAL
  | NODAL
deriving DecidableEq, Repr

/-- Modelled from the spec: the variable metadata record returned by
`ExodusSource.getCurrentVariableInformation()`; only its `object_type`
field is consulted by the adapter. -/
structure VarInfo where
  object_type : ObjectType
deriving DecidableEq, Repr

/-- Modelled from the spec: a filter object of the mesh source's own chain;
`getVTKFilter()` exposes the underlying VTK filter, modelled as a handle. -/
structure ChiggerFilter where
  vtk_filter : Nat
deriving DecidableEq, Repr

/-- Modelled from the spec: the Mesh Source Object (`ExodusSource`).  It
owns a block-extraction filter chain, reports staleness via `needsUpdate`,
exposes current variable metadata, and holds the active variable name
(read through `getOption` with key `variable`). -/
structure ExodusSource where
  needs_update : Bool
  filters : List ChiggerFilter
  varinfo : VarInfo
  var_option : String
deriving DecidableEq, Repr

namespace ExodusSource

/-- Modelled from the spec: `ExodusSource.getFilters()`. -/
def getFilters (es : ExodusSource) : List ChiggerFilter :=
  es.filters

/-- Modelled from the spec: `ExodusSource.getCurrentVariableInformation()`. -/
def getCurrentVariableInformation (es : ExodusSource) : VarInfo :=
  es.varinfo

/-- Modelled from the spec: `ExodusSource.needsUpdate()`. -/
def needsUpdate (es : ExodusSource) : Bool :=
  es.needs_update

/-- Modelled from the spec: the delegated `ExodusSource.update()` refresh;
it clears the staleness flag (its other effects are internal to the mesh
source and invisible to the adapter). -/
def update (es : ExodusSource) : ExodusSource :=
  { es with needs_update := false }

end ExodusSource

/-- An entry of the options registry: a name, a current default value, a
description and a list of allowed values (empty meaning unconstrained). -/
structure OptionEntry where
  name : String
  dflt : String
  desc : String
  allow : List String
deriving DecidableEq, Repr

/-- Modelled from the spec: `Options.add`, appending a new entry. -/
def addOption (os : List OptionEntry) (e : OptionEntry) : List OptionEntry :=
  os ++ [e]

/-- Modelled from the spec: `Options.setDefault`, replacing the default
value of every entry with the given name. -/
def setDefault (os : List OptionEntry) (key v : String) : List OptionEntry :=
  os.map (fun e => if e.name = key then { e with dflt := v } else e)

/-- First entry with the given name, mirroring option lookup by key. -/
def lookupEntry : List OptionEntry → String → Option OptionEntry
  | [], _ => none
  | e :: rest, key => if e.name = key then some e else lookupEntry rest key

/-- Resolved option values: an association list from option name to value. -/
def lookupVal : List (String × String) → String → Option String
  | [], _ => none
  | p :: rest, key => if p.1 = key then some p.2 else lookupVal rest key

/-- Modelled from the spec: setting one option value by key (overwrite the
existing binding, or append a new one). -/
def setValue (vals : List (String × String)) (key v : String) :
    List (String × String) :=
  if (lookupVal vals key).isSome then
    vals.map (fun p => if p.1 = key then (key, v) else p)
  else
    vals ++ [(key, v)]

/-- Modelled from the spec: `setOptions(**kwargs)` merges the supplied
overrides into the value record, key by key. -/
def mergeKwargs (vals : List (String × String))
    (kwargs : List (String × String)) : List (String × String) :=
  kwargs.foldl (fun acc kv => setValue acc kv.1 kv.2) vals

/-- Default value record of an option set, as reinstated by
`_setInitialOptions` (modelled from the spec: reset to option defaults). -/
def defaultValues (os : List OptionEntry) : List (String × String) :=
  os.map (fun e => (e.name, e.dflt))

/-- Modelled from the spec: `getOption(name)` on a value record; a missing
key yields the empty string (the adapter only reads keys it declared). -/
def getOptionVal (vals : List (String × String)) (key : String) : String :=
  (lookupVal vals key).getD ""

/-- Modelled from the spec: the base 2D-source option set inherited from
`base.ChiggerSource2D().getOptions()`; concrete representative entries,
including the inherited justification options whose defaults the adapter
overrides. -/
def chiggerSource2DOptions : List OptionEntry :=
  [⟨"visible", "True", "Toggle the visibility of the object.", []⟩,
   ⟨"opacity", "1", "Opacity of the rendered object.", []⟩,
   ⟨"justification", "left", "Horizontal text anchor.", []⟩,
   ⟨"vertical_justification", "bottom", "Vertical text anchor.", []⟩]

/-- Modelled from the spec: the font option set from
`utils.FontOptions.get_options()`. -/
def fontOptionsList : List OptionEntry :=
  [⟨"text_color", "1 1 1", "Color of the text.", []⟩,
   ⟨"font_size", "24", "Size of the text.", []⟩]

/-- Label-rendering mode of the `vtkLabeledDataMapper`. -/
inductive LabelMode where
  | unset
  | labelIds
  | labelFieldData
deriving DecidableEq, Repr

/-- Side effects performed by `update`, in call order, used to state the
ordering and occurrence claims. -/
inductive Effect where
  | exodusUpdate
  | setInitialOptions
  | setOptions
  | setLabelModeToLabelIds
  | setFieldDataName (name : String)
  | setLabelModeToLabelFieldData
  | baseUpdate
  | setRenderer (iid renderer : Nat)
  | setFontOptions
deriving DecidableEq, Repr

/-- The `LabelExodusSource` adapter state: the wrapped mesh source, the
resolved option values, the active `_required_filters` chain, the mapper's
label mode and field-data name, the renderer handle (`_vtkrenderer`) and
the fresh-instance counter used to model object identity of filter
instances. -/
structure LabelExodusSource where
  exodus_source : ExodusSource
  option_values : List (String × String)
  required_filters : List FilterInstance
  label_mode : LabelMode
  field_data_name : Option String
  vtkrenderer : Nat
  next_iid : Nat
deriving DecidableEq, Repr

/-- A Python argument passed to the constructor: either an actual
`ExodusSource` instance or an object of some other class, carrying the
class name reported by `__class__.__name__`. -/
inductive PyObject where
  | exodus (es : ExodusSource)
  | other (typeName : String)
deriving DecidableEq, Repr

namespace LabelExodusSource

/-- `LabelExodusSource.getOptions()`: base 2D options plus font options,
plus the `label_type` entry (default `variable`, allowed values `point`,
`cell`, `variable`), with the justification defaults overridden to
`center` and `middle`.  Parametrised by the inherited option sets. -/
def getOptions (base font : List OptionEntry) : List OptionEntry :=
  setDefault
    (setDefault
      (addOption (base ++ font)
        ⟨"label_type", "variable", "Specify the type of label to create.",
         ["point", "cell", "variable"]⟩)
      "justification" "center")
    "vertical_justification" "middle"

/-- The adapter's concrete option set, instantiated with the modelled
inherited option sets. -/
def defaultOptionSet : List OptionEntry :=
  getOptions chiggerSource2DOptions fontOptionsList

/-- `LabelExodusSource.__init__(exodus_source, **kwargs)`: raises a
`mooseutils.MooseException` when the argument is not an `ExodusSource`;
on success stores the mesh source reference.  The renderer handle comes
from the base class. -/
def init (arg : PyObject) (vtkrenderer : Nat) :
    Except String LabelExodusSource :=
  match arg with
  | PyObject.exodus es =>
      Except.ok
        { exodus_source := es
          option_values := defaultValues defaultOptionSet
          required_filters := []
          label_mode := LabelMode.unset
          field_data_name := none
          vtkrenderer := vtkrenderer
          next_iid := 0 }
  | PyObject.other tn =>
      Except.error
        ("The supplied object of type " ++ tn ++
          " must be a ExodusSource object.")

/-- `LabelExodusSource.getVTKSource()`: returns
`self._exodus_source.getFilters()[-1].getVTKFilter()`.  The Python `[-1]`
index raises on an empty list, modelled by `Option`. -/
def getVTKSource (s : LabelExodusSource) : Option Nat :=
  (s.exodus_source.getFilters.getLast?).map ChiggerFilter.vtk_filter

/-- Renderer injection
`self._required_filters[-1].getVTKFilter().SetRenderer(self._vtkrenderer)`:
set the renderer handle on the last stage of the chain. -/
def injectRenderer : List FilterInstance → Nat → List FilterInstance
  | [], _ => []
  | [f], r => [{ f with renderer := some r }]
  | f :: g :: rest, r => f :: injectRenderer (g :: rest) r

/-- The option values as resolved inside `update`: defaults reinstated by
`_setInitialOptions`, then the call's keyword overrides merged by
`setOptions` (modelled from the spec for the external option system). -/
def resolvedValues (kwargs : List (String × String)) :
    List (String × String) :=
  mergeKwargs (defaultValues defaultOptionSet) kwargs

/-- The `label_type` value `update` acts on after option resolution. -/
def resolvedLabelType (kwargs : List (String × String)) : String :=
  getOptionVal (resolvedValues kwargs) "label_type"

/-- `LabelExodusSource.update(**kwargs)`: refresh the mesh source when
stale, reset and merge options, rebuild `_required_filters` from the
`label_type` decision table with freshly created filter instances,
configure the mapper's label mode, run the base composition update,
inject the renderer into the last stage, and apply the font options.
Returns the new state and the trace of side effects in call order. -/
def update (s : LabelExodusSource) (kwargs : List (String × String)) :
    LabelExodusSource × List Effect :=
  let es :=
    if s.exodus_source.needsUpdate then s.exodus_source.update
    else s.exodus_source
  let tr0 : List Effect :=
    if s.exodus_source.needsUpdate then [Effect.exodusUpdate] else []
  let vals := resolvedValues kwargs
  let tr1 := tr0 ++ [Effect.setInitialOptions, Effect.setOptions]
  let label_type := getOptionVal vals "label_type"
  let branch :
      List FilterInstance × LabelMode × Option String × List Effect × Nat :=
    if label_type = "cell" then
      ([⟨FilterType.IdFilter, s.next_iid, none⟩,
        ⟨FilterType.CellCenters, s.next_iid + 1, none⟩,
        ⟨FilterType.SelectVisiblePoints, s.next_iid + 2, none⟩],
       LabelMode.labelIds, s.field_data_name,
       [Effect.setLabelModeToLabelIds], s.next_iid + 3)
    else if label_type = "point" then
      ([⟨FilterType.IdFilter, s.next_iid, none⟩,
        ⟨FilterType.SelectVisiblePoints, s.next_iid + 1, none⟩],
       LabelMode.labelIds, s.field_data_name,
       [Effect.setLabelModeToLabelIds], s.next_iid + 2)
    else
      let varinfo := es.getCurrentVariableInformation
      let fs :=
        if varinfo.object_type = ObjectType.ELEMENTAL then
          [⟨FilterType.CellCenters, s.next_iid, none⟩,
           ⟨FilterType.SelectVisiblePoints, s.next_iid + 1, none⟩]
        else
          [⟨FilterType.SelectVisiblePoints, s.next_iid, none⟩]
      (fs, LabelMode.labelFieldData, some es.var_option,
       [Effect.setFieldDataName es.var_option,
        Effect.setLabelModeToLabelFieldData],
       s.next_iid + fs.length)
  let fs := branch.1
  let finalFilters := injectRenderer fs s.vtkrenderer
  let lastIid := (fs.getLast?.map FilterInstance.iid).getD 0
  (⟨es, vals, finalFilters, branch.2.1, branch.2.2.1, s.vtkrenderer,
     branch.2.2.2.2⟩,
   tr1 ++ branch.2.2.2.1 ++
     [Effect.baseUpdate, Effect.setRenderer lastIid s.vtkrenderer,
      Effect.setFontOptions])

end LabelExodusSource

/-- The §4.1 decision table of the specification, written from the spec's
words for comparison with the embedded `update`. -/
def decisionChain (label_type : String) (ot : ObjectType) : List FilterType :=
  if label_type = "cell" then
    [FilterType.IdFilter, FilterType.CellCenters,
     FilterType.SelectVisiblePoints]
  else if label_type = "point" then
    [FilterType.IdFilter, FilterType.SelectVisiblePoints]
  else if ot = ObjectType.ELEMENTAL then
    [FilterType.CellCenters, FilterType.SelectVisiblePoints]
  else
    [FilterType.SelectVisiblePoints]

/-- A stale mesh source over a nodal variable, used as a concrete
evaluation state for the theorems below. -/
def esWitnessNodal : ExodusSource :=
  ⟨true, [⟨7⟩], ⟨ObjectType.NODAL⟩, "u"⟩

/-- A fresh (not stale) mesh source over an elemental variable with a
two-stage extraction chain. -/
def esWitnessElem : ExodusSource :=
  ⟨false, [⟨3⟩, ⟨9⟩], ⟨ObjectType.ELEMENTAL⟩, "temp"⟩

/-- A newly constructed adapter over `esWitnessNodal`. -/
def sWitnessNodal : LabelExodusSource :=
  ⟨esWitnessNodal, defaultValues LabelExodusSource.defaultOptionSet, [],
   LabelMode.unset, none, 42, 0⟩

/-- An adapter over `esWitnessElem` that has already been updated once and
holds a previous filter instance. -/
def sWitnessElem : LabelExodusSource :=
  ⟨esWitnessElem, defaultValues LabelExodusSource.defaultOptionSet,
   [⟨FilterType.IdFilter, 0, none⟩], LabelMode.labelIds, none, 5, 1⟩

/-- An adapter with a different history but the same variable metadata and
active variable name as `sWitnessNodal`. -/
def sWitnessAlt : LabelExodusSource :=
  ⟨⟨false, [⟨7⟩], ⟨ObjectType.NODAL⟩, "u"⟩,
   [("label_type", "cell")], [⟨FilterType.IdFilter, 3, none⟩],
   LabelMode.labelIds, some "old", 9, 4⟩

/-- An adapter whose mesh source owns no filters at all. -/
def sWitnessEmpty : LabelExodusSource :=
  ⟨⟨false, [], ⟨ObjectType.NODAL⟩, "u"⟩,
   defaultValues LabelExodusSource.defaultOptionSet, [],
   LabelMode.unset, none, 0, 0⟩

/-- Every filter instance created by an `update` call carries an instance
identifier at or above the pre-call counter, so it is distinct from every
instance created earlier. -/
theorem update_filter_iid_lower_bound (s : LabelExodusSource)
    (kwargs : List (String × String)) :
    ∀ f ∈ (s.update kwargs).1.required_filters, s.next_iid ≤ f.iid := by
  intro f hf
  by_cases h1 : LabelExodusSource.resolvedLabelType kwargs = "cell"
  · simp only [LabelExodusSource.resolvedLabelType] at h1
    simp [LabelExodusSource.update, h1, LabelExodusSource.injectRenderer] at hf
    rcases hf with rfl | rfl | rfl <;> simp
  · by_cases h2 : LabelExodusSource.resolvedLabelType kwargs = "point"
    · simp only [LabelExodusSource.resolvedLabelType] at h2
      simp [LabelExodusSource.update, h2,
        LabelExodusSource.injectRenderer] at hf
      rcases hf with rfl | rfl <;> simp
    · simp only [LabelExodusSource.resolvedLabelType] at h1 h2
      cases ho : (if s.exodus_source.needsUpdate then s.exodus_source.update
          else s.exodus_source).varinfo.object_type <;>
        simp [LabelExodusSource.update, h1, h2, ho,
          LabelExodusSource.injectRenderer,
          ExodusSource.getCurrentVariableInformation] at hf
      · rcases hf with rfl | rfl <;> simp
      · subst hf
        simp

/-- Looking an entry up past a block of entries none of which carries the
key reduces to looking it up in the remainder. -/
theorem lookupEntry_append_right (xs ys : List OptionEntry) (key : String)
    (h : ∀ e ∈ xs, e.name ≠ key) :
    lookupEntry (xs ++ ys) key = lookupEntry ys key := by
  induction xs with
  | nil => rfl
  | cons a as ih =>
    simp only [List.cons_append, lookupEntry]
    rw [if_neg (h a (List.mem_cons_self a as))]
    exact ih (fun e he => h e (List.mem_cons_of_mem a he))

/-- Entry lookup commutes with `setDefault`, which preserves entry names. -/
theorem lookupEntry_setDefault (os : List OptionEntry) (k v key : String) :
    lookupEntry (setDefault os k v) key =
      (lookupEntry os key).map
        (fun e => if e.name = k then { e with dflt := v } else e) := by
  induction os with
  | nil => rfl
  | cons a as ih =>
    simp only [setDefault, List.map, lookupEntry]
    have hname : (if a.name = k then { a with dflt := v } else a).name =
        a.name := by
      split <;> rfl
    by_cases hkey : a.name = key
    · rw [if_pos (hname.trans hkey), if_pos hkey]
      rfl
    · rw [if_neg (fun hc => hkey (hname ▸ hc)), if_neg hkey]
      simpa [setDefault] using ih

/-- C1: for every `update()` call, when the resolved `label_type` is
`cell` the filter chain afterwards is exactly
[IdFilter, CellCenters, SelectVisiblePoints] in that order with the label
mode set to label-by-ID, and when it is `point` the chain is exactly
[IdFilter, SelectVisiblePoints] with the label mode set to label-by-ID,
for every adapter state and hence regardless of the mesh source's variable
metadata. -/
theorem update_cell_point_label_chain (s : LabelExodusSource)
    (kwargs : List (String × String)) :
    (LabelExodusSource.resolvedLabelType kwargs = "cell" →
      ((s.update kwargs).1.required_filters.map FilterInstance.ftype =
        [FilterType.IdFilter, FilterType.CellCenters,
         FilterType.SelectVisiblePoints] ∧
       (s.update kwargs).1.label_mode = LabelMode.labelIds)) ∧
    (LabelExodusSource.resolvedLabelType kwargs = "point" →
      ((s.update kwargs).1.required_filters.map FilterInstance.ftype =
        [FilterType.IdFilter, FilterType.SelectVisiblePoints] ∧
       (s.update kwargs).1.label_mode = LabelMode.labelIds)) := by
  constructor
  · intro h
    simp only [LabelExodusSource.resolvedLabelType] at h
    simp [LabelExodusSource.update, h, LabelExodusSource.injectRenderer]
  · intro h
    simp only [LabelExodusSource.resolvedLabelType] at h
    simp [LabelExodusSource.update, h, LabelExodusSource.injectRenderer]

/-- Witness for C1: evaluating `update` with `label_type=cell` and with
`label_type=point` on a concrete adapter. -/
theorem update_cell_point_label_chain_witness :
    ((sWitnessNodal.update [("label_type", "cell")]).1.required_filters.map
        FilterInstance.ftype =
      [FilterType.IdFilter, FilterType.CellCenters,
       FilterType.SelectVisiblePoints] ∧
     (sWitnessNodal.update [("label_type", "cell")]).1.label_mode =
       LabelMode.labelIds) ∧
    ((sWitnessNodal.update [("label_type", "point")]).1.required_filters.map
        FilterInstance.ftype =
      [FilterType.IdFilter, FilterType.SelectVisiblePoints] ∧
     (sWitnessNodal.update [("label_type", "point")]).1.label_mode =
       LabelMode.labelIds) :=
  ⟨(update_cell_point_label_chain sWitnessNodal
      [("label_type", "cell")]).1 rfl,
   (update_cell_point_label_chain sWitnessNodal
      [("label_type", "point")]).2 rfl⟩

/-- C2: for every `update()` call with resolved `label_type` equal to
`variable` (the default), the chain is [CellCenters, SelectVisiblePoints]
when the mesh source's current variable is elemental and
[SelectVisiblePoints] when it is nodal, and in both cases the label mode
is label-by-field-data-name with the name taken from the mesh source's
active `variable` option. -/
theorem update_variable_label_chain (s : LabelExodusSource)
    (kwargs : List (String × String))
    (h : LabelExodusSource.resolvedLabelType kwargs = "variable") :
    (s.update kwargs).1.required_filters.map FilterInstance.ftype =
      (if s.exodus_source.varinfo.object_type = ObjectType.ELEMENTAL then
        [FilterType.CellCenters, FilterType.SelectVisiblePoints]
       else [FilterType.SelectVisiblePoints]) ∧
    (s.update kwargs).1.label_mode = LabelMode.labelFieldData ∧
    (s.update kwargs).1.field_data_name =
      some s.exodus_source.var_option := by
  simp only [LabelExodusSource.resolvedLabelType] at h
  cases hn : s.exodus_source.needs_update <;>
    cases ho : s.exodus_source.varinfo.object_type <;>
      simp [LabelExodusSource.update, h, hn, ho,
        LabelExodusSource.injectRenderer, ExodusSource.needsUpdate,
        ExodusSource.update, ExodusSource.getCurrentVariableInformation]

/-- Witness for C2: evaluating `update` with no overrides (so the default
`label_type=variable` applies) on a concrete adapter over a nodal
variable. -/
theorem update_variable_label_chain_witness :
    (sWitnessNodal.update []).1.required_filters.map FilterInstance.ftype =
      (if sWitnessNodal.exodus_source.varinfo.object_type =
          ObjectType.ELEMENTAL then
        [FilterType.CellCenters, FilterType.SelectVisiblePoints]
       else [FilterType.SelectVisiblePoints]) ∧
    (sWitnessNodal.update []).1.label_mode = LabelMode.labelFieldData ∧
    (sWitnessNodal.update []).1.field_data_name =
      some sWitnessNodal.exodus_source.var_option :=
  update_variable_label_chain sWitnessNodal [] rfl

/-- C3: constructing the adapter with any argument that is not an
`ExodusSource` fails with an exception whose message names the offending
argument's class, and no adapter value is produced; for every
`ExodusSource` argument construction succeeds and stores that source. -/
theorem init_requires_exodus_source (arg : PyObject) (r : Nat) :
    (∀ tn, arg = PyObject.other tn →
      LabelExodusSource.init arg r =
        Except.error ("The supplied object of type " ++ tn ++
          " must be a ExodusSource object.")) ∧
    (∀ es, arg = PyObject.exodus es →
      ∃ a, LabelExodusSource.init arg r = Except.ok a ∧
        a.exodus_source = es) := by
  cases arg <;> simp [LabelExodusSource.init]

/-- Witness for C3: a string argument is rejected with the descriptive
message; a concrete `ExodusSource` argument is accepted. -/
theorem init_requires_exodus_source_witness :
    LabelExodusSource.init (PyObject.other "str") 0 =
      Except.error ("The supplied object of type " ++ "str" ++
        " must be a ExodusSource object.") ∧
    ∃ a, LabelExodusSource.init (PyObject.exodus esWitnessNodal) 0 =
      Except.ok a ∧ a.exodus_source = esWitnessNodal :=
  ⟨(init_requires_exodus_source (PyObject.other "str") 0).1 "str" rfl,
   (init_requires_exodus_source (PyObject.exodus esWitnessNodal) 0).2
     esWitnessNodal rfl⟩

/-- C4: after every `update()` call the filter chain matches the decision
table for the `label_type` and object-type evaluated in that call, and the
chain is rebuilt wholesale from freshly created instances: assuming the
well-formedness invariant that all previously attached instances have
identifiers below the counter, no instance from before the call remains
attached. -/
theorem update_rebuilds_required_filters (s : LabelExodusSource)
    (kwargs : List (String × String))
    (hwf : ∀ f ∈ s.required_filters, f.iid < s.next_iid) :
    ((s.update kwargs).1.required_filters.map FilterInstance.ftype =
      decisionChain (LabelExodusSource.resolvedLabelType kwargs)
        s.exodus_source.varinfo.object_type) ∧
    ∀ f ∈ (s.update kwargs).1.required_filters,
      f ∉ s.required_filters := by
  constructor
  · by_cases h1 : LabelExodusSource.resolvedLabelType kwargs = "cell"
    · rw [h1]
      simp only [LabelExodusSource.resolvedLabelType] at h1
      simp [LabelExodusSource.update, h1, LabelExodusSource.injectRenderer,
        decisionChain]
    · by_cases h2 : LabelExodusSource.resolvedLabelType kwargs = "point"
      · rw [h2]
        simp only [LabelExodusSource.resolvedLabelType] at h2
        simp [LabelExodusSource.update, h2,
          LabelExodusSource.injectRenderer, decisionChain]
      · rw [decisionChain, if_neg h1, if_neg h2]
        simp only [LabelExodusSource.resolvedLabelType] at h1 h2
        cases hn : s.exodus_source.needs_update <;>
          cases ho : s.exodus_source.varinfo.object_type <;>
            simp [LabelExodusSource.update, h1, h2, hn, ho,
              LabelExodusSource.injectRenderer, ExodusSource.needsUpdate,
              ExodusSource.update,
              ExodusSource.getCurrentVariableInformation]
  · intro f hf hmem
    have ha := update_filter_iid_lower_bound s kwargs f hf
    have hb := hwf f hmem
    omega

/-- Witness for C4: updating an adapter that already holds a filter
instance from an earlier call, with a different `label_type`, at a
concrete state satisfying the identifier invariant. -/
theorem update_rebuilds_required_filters_witness :
    ((sWitnessElem.update [("label_type", "point")]).1.required_filters.map
        FilterInstance.ftype =
      decisionChain
        (LabelExodusSource.resolvedLabelType [("label_type", "point")])
        sWitnessElem.exodus_source.varinfo.object_type) ∧
    ∀ f ∈ (sWitnessElem.update
        [("label_type", "point")]).1.required_filters,
      f ∉ sWitnessElem.required_filters :=
  update_rebuilds_required_filters sWitnessElem [("label_type", "point")]
    (by simp [sWitnessElem])

/-- C5: `getVTKSource` returns the handle of the last filter stage of the
mesh source's own chain; it reads nothing but the mesh source's filter
list, so its result is unchanged under any modification of the adapter's
option values, filter chain, label mode, field-data name, renderer or
counter, and is also unchanged by running `update` with any options. -/
theorem getVTKSource_returns_last_source_filter (s : LabelExodusSource) :
    s.getVTKSource =
      (s.exodus_source.filters.getLast?).map ChiggerFilter.vtk_filter ∧
    (∀ ov rf lm fdn r n,
      (LabelExodusSource.mk s.exodus_source ov rf lm fdn r n).getVTKSource =
        s.getVTKSource) ∧
    ∀ kwargs, ((s.update kwargs).1).getVTKSource = s.getVTKSource := by
  refine ⟨rfl, fun ov rf lm fdn r n => rfl, fun kwargs => ?_⟩
  cases hn : s.exodus_source.needs_update <;>
    simp [LabelExodusSource.update, LabelExodusSource.getVTKSource,
      ExodusSource.needsUpdate, ExodusSource.update,
      ExodusSource.getFilters, hn]

/-- C6: for every `update()` call, if the mesh source is stale the
delegated refresh is the very first effect — before the option reset and
merge — and afterwards the source is no longer stale; if the source is not
stale no refresh call occurs anywhere in the call. -/
theorem update_refreshes_stale_source (s : LabelExodusSource)
    (kwargs : List (String × String)) :
    (s.exodus_source.needs_update = true →
      ((s.update kwargs).2.head? = some Effect.exodusUpdate ∧
       (s.update kwargs).1.exodus_source.needs_update = false)) ∧
    (s.exodus_source.needs_update = false →
      Effect.exodusUpdate ∉ (s.update kwargs).2) := by
  constructor
  · intro h
    simp [LabelExodusSource.update, ExodusSource.needsUpdate,
      ExodusSource.update, h]
  · intro h
    by_cases h1 : LabelExodusSource.resolvedLabelType kwargs = "cell"
    · simp only [LabelExodusSource.resolvedLabelType] at h1
      simp [LabelExodusSource.update, ExodusSource.needsUpdate, h, h1]
    · by_cases h2 : LabelExodusSource.resolvedLabelType kwargs = "point"
      · simp only [LabelExodusSource.resolvedLabelType] at h2
        simp [LabelExodusSource.update, ExodusSource.needsUpdate, h, h2]
      · simp only [LabelExodusSource.resolvedLabelType] at h1 h2
        cases ho : s.exodus_source.varinfo.object_type <;>
          simp [LabelExodusSource.update, ExodusSource.needsUpdate, h, h1,
            h2, ho, ExodusSource.getCurrentVariableInformation]

/-- Witness for C6: a stale adapter is refreshed first; a fresh adapter
triggers no refresh. -/
theorem update_refreshes_stale_source_witness :
    ((sWitnessNodal.update []).2.head? = some Effect.exodusUpdate ∧
     (sWitnessNodal.update []).1.exodus_source.needs_update = false) ∧
    Effect.exodusUpdate ∉ (sWitnessElem.update []).2 :=
  ⟨(update_refreshes_stale_source sWitnessNodal []).1 rfl,
   (update_refreshes_stale_source sWitnessElem []).2 rfl⟩

/-- C7: option resolution in `update` resets to defaults before merging
the supplied overrides, so two calls with the same overrides on adapters
with arbitrary different histories — provided the mesh sources agree on
the variable metadata and active variable name — resolve to the same final
option values and select the same filter chain and label mode. -/
theorem update_resolution_deterministic (s1 s2 : LabelExodusSource)
    (kwargs : List (String × String))
    (hvar : s1.exodus_source.varinfo = s2.exodus_source.varinfo)
    (hname : s1.exodus_source.var_option = s2.exodus_source.var_option) :
    (s1.update kwargs).1.option_values =
      (s2.update kwargs).1.option_values ∧
    (s1.update kwargs).1.required_filters.map FilterInstance.ftype =
      (s2.update kwargs).1.required_filters.map FilterInstance.ftype ∧
    (s1.update kwargs).1.label_mode = (s2.update kwargs).1.label_mode := by
  by_cases h1 : LabelExodusSource.resolvedLabelType kwargs = "cell"
  · simp only [LabelExodusSource.resolvedLabelType] at h1
    simp [LabelExodusSource.update, h1, LabelExodusSource.injectRenderer]
  · by_cases h2 : LabelExodusSource.resolvedLabelType kwargs = "point"
    · simp only [LabelExodusSource.resolvedLabelType] at h2
      simp [LabelExodusSource.update, h2, LabelExodusSource.injectRenderer]
    · simp only [LabelExodusSource.resolvedLabelType] at h1 h2
      cases hn1 : s1.exodus_source.needs_update <;>
        cases hn2 : s2.exodus_source.needs_update <;>
          cases ho : s1.exodus_source.varinfo.object_type <;>
            simp [LabelExodusSource.update, h1, h2, hn1, hn2, ho,
              LabelExodusSource.injectRenderer, ExodusSource.needsUpdate,
              ExodusSource.update,
              ExodusSource.getCurrentVariableInformation,
              ← hvar, ho, hname]

/-- Witness for C7: a freshly constructed adapter and an adapter carrying
leftover option values, filters and mapper state from a previous call
resolve identically under the same overrides. -/
theorem update_resolution_deterministic_witness :
    (sWitnessNodal.update [("label_type", "point")]).1.option_values =
      (sWitnessAlt.update [("label_type", "point")]).1.option_values ∧
    (sWitnessNodal.update [("label_type", "point")]).1.required_filters.map
        FilterInstance.ftype =
      (sWitnessAlt.update [("label_type", "point")]).1.required_filters.map
        FilterInstance.ftype ∧
    (sWitnessNodal.update [("label_type", "point")]).1.label_mode =
      (sWitnessAlt.update [("label_type", "point")]).1.label_mode :=
  update_resolution_deterministic sWitnessNodal sWitnessAlt
    [("label_type", "point")] rfl rfl

/-- C8: at the end of every `update()` call the last stage of the freshly
built chain exists, is the `SelectVisiblePoints` stage, and has received
the adapter's renderer handle — for every `label_type` and every
object-type. -/
theorem update_injects_renderer_into_last_stage (s : LabelExodusSource)
    (kwargs : List (String × String)) :
    ∃ f, (s.update kwargs).1.required_filters.getLast? = some f ∧
      f.ftype = FilterType.SelectVisiblePoints ∧
      f.renderer = some s.vtkrenderer := by
  by_cases h1 : LabelExodusSource.resolvedLabelType kwargs = "cell"
  · simp only [LabelExodusSource.resolvedLabelType] at h1
    simp [LabelExodusSource.update, h1, LabelExodusSource.injectRenderer]
  · by_cases h2 : LabelExodusSource.resolvedLabelType kwargs = "point"
    · simp only [LabelExodusSource.resolvedLabelType] at h2
      simp [LabelExodusSource.update, h2, LabelExodusSource.injectRenderer]
    · simp only [LabelExodusSource.resolvedLabelType] at h1 h2
      cases ho : (if s.exodus_source.needsUpdate then s.exodus_source.update
          else s.exodus_source).varinfo.object_type <;>
        simp [LabelExodusSource.update, h1, h2, ho,
          LabelExodusSource.injectRenderer,
          ExodusSource.getCurrentVariableInformation]

/-- C9: for any inherited base and font option sets not already containing
a `label_type` entry, the adapter's option set contains a `label_type`
entry with default `variable` and allowed values exactly `point`, `cell`,
`variable`; every `justification` entry has its default overridden to
`center` and every `vertical_justification` entry to `middle`; and every
other inherited entry is carried over unchanged. -/
theorem getOptions_label_type_and_defaults (base font : List OptionEntry)
    (hfresh : ∀ e ∈ base ++ font, e.name ≠ "label_type") :
    (lookupEntry (LabelExodusSource.getOptions base font) "label_type" =
      some ⟨"label_type", "variable",
        "Specify the type of label to create.",
        ["point", "cell", "variable"]⟩) ∧
    (∀ e ∈ LabelExodusSource.getOptions base font,
      e.name = "justification" → e.dflt = "center") ∧
    (∀ e ∈ LabelExodusSource.getOptions base font,
      e.name = "vertical_justification" → e.dflt = "middle") ∧
    (∀ e ∈ base ++ font, e.name ≠ "justification" →
      e.name ≠ "vertical_justification" →
      e ∈ LabelExodusSource.getOptions base font) := by
  refine ⟨?_, ?_, ?_, ?_⟩
  · rw [LabelExodusSource.getOptions, lookupEntry_setDefault,
      lookupEntry_setDefault, addOption,
      lookupEntry_append_right _ _ _ hfresh]
    simp [lookupEntry]
  · intro e he hn
    simp only [LabelExodusSource.getOptions, setDefault, addOption,
      List.mem_map] at he
    obtain ⟨e0, ⟨e1, he1, rfl⟩, rfl⟩ := he
    by_cases hj : e1.name = "justification" <;>
      by_cases hv : e1.name = "vertical_justification" <;>
        simp [hj, hv] at hn ⊢
  · intro e he hn
    simp only [LabelExodusSource.getOptions, setDefault, addOption,
      List.mem_map] at he
    obtain ⟨e0, ⟨e1, he1, rfl⟩, rfl⟩ := he
    by_cases hj : e1.name = "justification" <;>
      by_cases hv : e1.name = "vertical_justification" <;>
        simp [hj, hv] at hn ⊢
  · intro e he hj hv
    simp only [LabelExodusSource.getOptions, setDefault, addOption,
      List.mem_map]
    refine ⟨e, ⟨e, ?_, ?_⟩, ?_⟩
    · exact List.mem_append_left _ he
    · simp [hj]
    · simp [hj, hv]

/-- Witness for C9: the adapter's concrete option set, built over the
modelled inherited sets. -/
theorem getOptions_label_type_and_defaults_witness :
    (lookupEntry (LabelExodusSource.getOptions chiggerSource2DOptions
        fontOptionsList) "label_type" =
      some ⟨"label_type", "variable",
        "Specify the type of label to create.",
        ["point", "cell", "variable"]⟩) ∧
    (∀ e ∈ LabelExodusSource.getOptions chiggerSource2DOptions
        fontOptionsList,
      e.name = "justification" → e.dflt = "center") ∧
    (∀ e ∈ LabelExodusSource.getOptions chiggerSource2DOptions
        fontOptionsList,
      e.name = "vertical_justification" → e.dflt = "middle") ∧
    (∀ e ∈ chiggerSource2DOptions ++ fontOptionsList,
      e.name ≠ "justification" → e.name ≠ "vertical_justification" →
      e ∈ LabelExodusSource.getOptions chiggerSource2DOptions
        fontOptionsList) :=
  getOptions_label_type_and_defaults chiggerSource2DOptions fontOptionsList
    (by decide)

/-- C10: the embedding of `getVTKSource` indexes the mesh source's filter
list from the end with no emptiness guard: when the list is non-empty the
access yields a value, and for a mesh source with an empty filter list the
call fails (no value is produced). -/
theorem getVTKSource_requires_nonempty_filters (s : LabelExodusSource) :
    (s.exodus_source.filters ≠ [] → (s.getVTKSource).isSome = true) ∧
    (s.exodus_source.filters = [] → s.getVTKSource = none) := by
  constructor
  · intro h
    simp [LabelExodusSource.getVTKSource, ExodusSource.getFilters,
      Option.isSome_map, List.getLast?_isSome, h]
  · intro h
    simp [LabelExodusSource.getVTKSource, ExodusSource.getFilters, h]

/-- Witness for C10: a mesh source with one filter yields a handle; a mesh
source with no filters yields none. -/
theorem getVTKSource_requires_nonempty_filters_witness :
    (sWitnessNodal.getVTKSource).isSome = true ∧
    sWitnessEmpty.getVTKSource = none :=
  ⟨(getVTKSource_requires_nonempty_filters sWitnessNodal).1 (by decide),
   (getVTKSource_requires_nonempty_filters sWitnessEmpty).2 rfl⟩
